import Mathlib

/-!
# App-DEx01: the state / city selector of `src/App.js`

A shallow embedding of the single React component `App`:

* the six `useState` cells become the fields of `AppState`;
* every callback of the component (`useEffect` continuation, `handleStateSelection`,
  `searchStateCities`) becomes a pure function on `AppState`;
* the JSX returned by the component becomes the data produced by
  `createDropdownOptions`, `renderButtonDisabled` and `renderMain`.

Two pieces of the JavaScript platform are used by the component and are not part of the
repository: `Array.prototype.sort` and `String.prototype.localeCompare`.  The comparison
is a parameter of the embedding (`cmp`); the properties ECMAScript guarantees for it are
collected in `ConsistentComparator`.  `localeCompare` below is one concrete collation used
to evaluate the examples.
-/

namespace AppDEx01

/-! ## Data model -/

/-- One element of the states response (`estado.id`, `estado.sigla`, `estado.nome`). -/
structure Estado where
  id : Int
  sigla : String
  nome : String
deriving DecidableEq

/-- The object reached by `city.municipio.microrregiao`. -/
structure Microrregiao where
  nome : String
deriving DecidableEq

/-- The object reached by `city.municipio`. -/
structure Municipio where
  microrregiao : Microrregiao
deriving DecidableEq

/-- One element of the cities response (`city.id`, `city.nome`,
`city.municipio.microrregiao.nome`). -/
structure City where
  id : Int
  nome : String
  municipio : Municipio
deriving DecidableEq

/-- The six `useState` cells of `App` (App.js lines 46-51).  `selectedState` is `none`
for JavaScript `null`. -/
structure AppState where
  states : List Estado
  selectedState : Option String
  cities : List City
  isButtonActive : Bool
  isPlaceholderDisabled : Bool
  isLoading : Bool
deriving DecidableEq

/-- The initial values passed to `useState` (App.js lines 46-51). -/
def initialState : AppState :=
  { states := []
    selectedState := none
    cities := []
    isButtonActive := false
    isPlaceholderDisabled := false
    isLoading := false }

/-! ## Platform: `Array.prototype.sort` and `localeCompare` -/

/-- Insertion step of the stable sort: `x` originally precedes every element of the list
and is placed before the first `y` with `comparefn x y ≤ 0`. -/
def insertSorted {α : Type} (comparefn : α → α → Int) (x : α) : List α → List α
  | [] => [x]
  | y :: ys =>
    if comparefn x y ≤ 0 then x :: y :: ys else y :: insertSorted comparefn x ys

/-- `Array.prototype.sort(comparefn)`: a stable sort (ECMAScript 2019 and later); `a` is
placed after `b` only when `comparefn(a, b) > 0`.  For a consistent comparison function
the result of a stable sort is unique, so the algorithm chosen here (insertion sort) is
immaterial. -/
def arraySort {α : Type} (comparefn : α → α → Int) : List α → List α
  | [] => []
  | x :: xs => insertSorted comparefn x (arraySort comparefn xs)

/-- ECMAScript's "consistent comparison function" (the requirement of
`Array.prototype.sort` on `comparefn`, which `String.prototype.localeCompare` is
required to satisfy on all strings): `=`, `<` and `>` under the comparison are
reflexive / symmetric / transitive as listed in the standard. -/
structure ConsistentComparator {α : Type} (cmp : α → α → Int) : Prop where
  refl : ∀ a, cmp a a = 0
  symm : ∀ a b, cmp a b = 0 → cmp b a = 0
  trans_eq : ∀ a b c, cmp a b = 0 → cmp b c = 0 → cmp a c = 0
  trans_lt : ∀ a b c, cmp a b < 0 → cmp b c < 0 → cmp a c < 0
  trans_gt : ∀ a b c, 0 < cmp a b → 0 < cmp b c → 0 < cmp a c

/-- Accented Latin letters of Portuguese (and neighbours): character, base letter,
accent rank (1 = none, 2 = acute, 3 = grave, 4 = circumflex, 5 = diaeresis, 6 = tilde,
7 = cedilla), case rank (1 = lower, 2 = upper). -/
def accentTable : List (Char × Char × Nat × Nat) :=
  [ ('á', 'a', 2, 1), ('à', 'a', 3, 1), ('â', 'a', 4, 1), ('ä', 'a', 5, 1), ('ã', 'a', 6, 1),
    ('é', 'e', 2, 1), ('è', 'e', 3, 1), ('ê', 'e', 4, 1), ('ë', 'e', 5, 1),
    ('í', 'i', 2, 1), ('ì', 'i', 3, 1), ('î', 'i', 4, 1), ('ï', 'i', 5, 1),
    ('ó', 'o', 2, 1), ('ò', 'o', 3, 1), ('ô', 'o', 4, 1), ('ö', 'o', 5, 1), ('õ', 'o', 6, 1),
    ('ú', 'u', 2, 1), ('ù', 'u', 3, 1), ('û', 'u', 4, 1), ('ü', 'u', 5, 1),
    ('ç', 'c', 7, 1), ('ñ', 'n', 6, 1),
    ('Á', 'a', 2, 2), ('À', 'a', 3, 2), ('Â', 'a', 4, 2), ('Ä', 'a', 5, 2), ('Ã', 'a', 6, 2),
    ('É', 'e', 2, 2), ('È', 'e', 3, 2), ('Ê', 'e', 4, 2), ('Ë', 'e', 5, 2),
    ('Í', 'i', 2, 2), ('Ì', 'i', 3, 2), ('Î', 'i', 4, 2), ('Ï', 'i', 5, 2),
    ('Ó', 'o', 2, 2), ('Ò', 'o', 3, 2), ('Ô', 'o', 4, 2), ('Ö', 'o', 5, 2), ('Õ', 'o', 6, 2),
    ('Ú', 'u', 2, 2), ('Ù', 'u', 3, 2), ('Û', 'u', 4, 2), ('Ü', 'u', 5, 2),
    ('Ç', 'c', 7, 2), ('Ñ', 'n', 6, 2) ]

/-- Collation element of a character: (primary, secondary, tertiary) weights, all
positive.  Latin letters get their alphabet position as primary weight, above every
other character; the accent is the secondary and the case the tertiary weight.
Characters outside the Latin letters are ranked by code point. -/
def collationElement (c : Char) : Nat × Nat × Nat :=
  if 'a'.toNat ≤ c.toNat ∧ c.toNat ≤ 'z'.toNat then
    (0x110001 + (c.toNat - 'a'.toNat), 1, 1)
  else if 'A'.toNat ≤ c.toNat ∧ c.toNat ≤ 'Z'.toNat then
    (0x110001 + (c.toNat - 'A'.toNat), 1, 2)
  else
    match accentTable.lookup c with
    | some (base, accent, upper) => (0x110001 + (base.toNat - 'a'.toNat), accent, upper)
    | none => (c.toNat + 1, 1, 1)

/-- Sort key of a string in the manner of the Unicode Collation Algorithm: the primary
weights, a `0` separator, the secondary weights, a `0` separator, the tertiary
weights. -/
def sortKey (s : String) : List Nat :=
  let ces := s.data.map collationElement
  ces.map (fun ce => ce.1) ++ [0] ++ ces.map (fun ce => ce.2.1) ++ [0]
    ++ ces.map (fun ce => ce.2.2)

/-- Lexicographic comparison of two sort keys: negative, zero or positive. -/
def compareKeys : List Nat → List Nat → Int
  | [], [] => 0
  | [], _ :: _ => -1
  | _ :: _, [] => 1
  | x :: xs, y :: ys =>
    if x < y then -1 else if y < x then 1 else compareKeys xs ys

/-- A concrete locale-aware comparison standing for `a.localeCompare(b)`: base letters
first, then accents, then case (so `"Éden"` sorts between `"Abadia"` and `"Vitória"`,
unlike in code-unit order). -/
def localeCompare (a b : String) : Int :=
  compareKeys (sortKey a) (sortKey b)

/-! ## Callbacks of the component -/

/-- The two ways the cities request can fail before `cityData` is available. -/
inductive FetchError where
  /-- The `fetch` promise rejects (network error). -/
  | networkError
  /-- The response arrives but `response.json()` rejects (body is not JSON). -/
  | notJson
deriving DecidableEq

/-- Outcome of `fetch(url)` followed by `response.json()` for the cities request. -/
inductive FetchOutcome where
  /-- One of the two `await`s throws; control passes to the `catch` block. -/
  | error (e : FetchError)
  /-- The body parses to the array `cityData`. -/
  | ok (cityData : List City)
deriving DecidableEq

/-- Continuation of the `useEffect` fetch on success: `setStates(apiData)`
(App.js lines 57-60). -/
def statesLoaded (apiData : List Estado) (s : AppState) : AppState :=
  { s with states := apiData }

/-- Failure of the `useEffect` fetch: `.catch((error) => console.log(error))`
(App.js line 61); no state cell is written. -/
def statesFailed (s : AppState) : AppState := s

/-- `handleStateSelection(value)` (App.js lines 79-83); `value` is `e.target.value`,
always a string. -/
def handleStateSelection (value : String) (s : AppState) : AppState :=
  { s with
    isButtonActive := true
    isPlaceholderDisabled := true
    selectedState := some value }

/-- The URL requested by `searchStateCities(uf)` (App.js line 89); a `null` argument is
interpolated as the text `null`. -/
def citiesUrl (uf : Option String) : String :=
  "https://servicodados.ibge.gov.br/api/v1/localidades/estados/" ++ uf.getD "null"
    ++ "/distritos"

/-- Synchronous prefix of `searchStateCities`: `setIsLoading(true)` (App.js line 86). -/
def searchBegin (s : AppState) : AppState :=
  { s with isLoading := true }

/-- The `try` body after the two `await`s (App.js lines 93-98):
sort `cityData` by `a.nome.localeCompare(b.nome)`, `setCities`, `setIsLoading(false)`. -/
def searchSucceed (cmp : String → String → Int) (cityData : List City) (s : AppState) :
    AppState :=
  let sortedCities := arraySort (fun a b => cmp a.nome b.nome) cityData
  { s with cities := sortedCities, isLoading := false }

/-- The `catch` block (App.js lines 99-101): `console.error(...)` only; no state cell
is written. -/
def searchFail (s : AppState) : AppState := s

/-- Resolution of the request of `searchStateCities`: the rest of the `try` body on
success, the `catch` block otherwise. -/
def searchResolve (cmp : String → String → Int) (outcome : FetchOutcome) (s : AppState) :
    AppState :=
  match outcome with
  | .ok cityData => searchSucceed cmp cityData s
  | .error _ => searchFail s

/-- `searchStateCities(uf)` run to completion (App.js lines 85-102); `outcome` is what
the request for `citiesUrl uf` produces.  `uf` only selects the URL. -/
def searchStateCities (cmp : String → String → Int) (uf : Option String)
    (outcome : FetchOutcome) (s : AppState) : AppState :=
  let _url := citiesUrl uf
  searchResolve cmp outcome (searchBegin s)

/-! ## Rendering -/

/-- React `key` of an `<option>`: the text `placeholder` or the number `estado.id`. -/
inductive Key where
  | str (s : String)
  | num (n : Int)
deriving DecidableEq

/-- An `<option>` element: `key`, `value`, `disabled` and its text. -/
structure OptionEl where
  key : Key
  value : String
  disabled : Bool
  label : String
deriving DecidableEq

/-- The placeholder `<option>` (App.js lines 66-68). -/
def placeholderOption (isPlaceholderDisabled : Bool) : OptionEl :=
  { key := .str "placeholder", value := "", disabled := isPlaceholderDisabled,
    label := "Selecione um estado" }

/-- `createDropdownOptions(states)` (App.js lines 64-77); it closes over the cell
`isPlaceholderDisabled`. -/
def createDropdownOptions (isPlaceholderDisabled : Bool) (states : List Estado) :
    List OptionEl :=
  placeholderOption isPlaceholderDisabled ::
    states.map (fun estado =>
      { key := .num estado.id, value := estado.sigla, disabled := false,
        label := estado.nome })

/-- Children of the `<select>` (App.js line 112). -/
def renderSelect (s : AppState) : List OptionEl :=
  createDropdownOptions s.isPlaceholderDisabled s.states

/-- The `disabled` attribute of the button (App.js line 116). -/
def renderButtonDisabled (s : AppState) : Bool := !s.isButtonActive

/-- One `<li>` of the city list (App.js lines 129-135). -/
structure CityItem where
  key : Int
  cidade : String
  microrregiao : String
deriving DecidableEq

/-- Content of `<div className="main">` (App.js lines 122-140). -/
inductive MainContent where
  /-- The paragraph `<p>Carregando cidades...</p>`. -/
  | carregando (texto : String)
  /-- The `<ul>` with one `<li>` per city. -/
  | lista (items : List CityItem)
  /-- The value `false` of `cities.length > 0 && ...`, for which React renders nothing. -/
  | nada
deriving DecidableEq

/-- The expression inside `<div className="main">` (App.js lines 123-139). -/
def renderMain (s : AppState) : MainContent :=
  if s.isLoading then
    .carregando "Carregando cidades..."
  else if s.cities.length > 0 then
    .lista (s.cities.map (fun city =>
      { key := city.id, cidade := city.nome,
        microrregiao := city.municipio.microrregiao.nome }))
  else
    .nada

/-- Whether the main area shows the loading paragraph. -/
def MainContent.showsLoading : MainContent → Bool
  | .carregando _ => true
  | _ => false

/-- The city items shown in the main area. -/
def MainContent.cityItems : MainContent → List CityItem
  | .lista items => items
  | _ => []

/-- All text nodes shown in the main area that are not part of a city item. -/
def MainContent.messages : MainContent → List String
  | .carregando texto => [texto]
  | _ => []

/-! ## The component as a transition system -/

/-- What can happen to a mounted component. -/
inductive Event where
  /-- The states request succeeds with `apiData`. -/
  | statesLoaded (apiData : List Estado)
  /-- The states request fails. -/
  | statesFailed
  /-- The `onChange` of the `<select>`: `handleStateSelection(value)`. -/
  | select (value : String)
  /-- A call of `searchStateCities` starts (its synchronous prefix runs). -/
  | fetchStart
  /-- A pending cities request succeeds with `cityData`. -/
  | fetchSuccess (cityData : List City)
  /-- A pending cities request fails. -/
  | fetchFailure
deriving DecidableEq

/-- Effect of one event on the state cells. -/
def step (cmp : String → String → Int) (s : AppState) : Event → AppState
  | .statesLoaded apiData => statesLoaded apiData s
  | .statesFailed => statesFailed s
  | .select value => handleStateSelection value s
  | .fetchStart => searchBegin s
  | .fetchSuccess cityData => searchSucceed cmp cityData s
  | .fetchFailure => searchFail s

/-- State after a sequence of events, oldest first. -/
def run (cmp : String → String → Int) (events : List Event) (s : AppState) : AppState :=
  events.foldl (step cmp) s

/-- The value an event passes to `handleStateSelection`, if it is a selection. -/
def selectedValue : Event → Option String
  | .select value => some value
  | _ => none

/-- The value passed by the last `select` event of a trace, if any. -/
def lastSelected : List Event → Option String
  | [] => none
  | e :: es =>
    match lastSelected es with
    | some v => some v
    | none => selectedValue e

/-! ## Concrete data of the examples -/

/-- A city with the given `id`, `nome` and micro-region name. -/
def mkCity (id : Int) (nome microrregiao : String) : City :=
  { id := id, nome := nome, municipio := { microrregiao := { nome := microrregiao } } }

/-- The cities response `["Vitória", "Abadia", "Éden"]` of the sorting example. -/
def exampleCities : List City :=
  [mkCity 1 "Vitória" "Vitória", mkCity 2 "Abadia" "Ceres", mkCity 3 "Éden" "Sorocaba"]

/-- The states response of the scenario, in the order received. -/
def scenarioStates (idSP idRJ : Int) : List Estado :=
  [ { id := idSP, sigla := "SP", nome := "São Paulo" },
    { id := idRJ, sigla := "RJ", nome := "Rio de Janeiro" } ]

/-- The cities response of the scenario, in the order received. -/
def scenarioCities (idZe idAna : Int) (mrZe mrAna : String) : List City :=
  [mkCity idZe "Zé" mrZe, mkCity idAna "Ana" mrAna]

/-- A states response whose only element has an empty `sigla`. -/
def emptySiglaStates : List Estado :=
  [ { id := 0, sigla := "", nome := "Sem sigla" } ]

/-- A state with stale cities from an earlier fetch and a new fetch pending. -/
def staleLoadingState : AppState :=
  run localeCompare
    [.select "ES", .fetchStart, .fetchSuccess exampleCities, .fetchStart] initialState

/-- Two confirms whose requests overlap: the second is started while the first is
pending (the button stays enabled), the second succeeds, then the first fails. -/
def overlappingTrace : List Event :=
  [ .select "SP", .fetchStart, .fetchStart,
    .fetchSuccess [mkCity 3548500 "Santos" "Santos"], .fetchFailure ]

/-- A confirm followed by a re-selection and a second confirm, none of which has
resolved when the first request fails. -/
def pendingTrace : List Event :=
  [.select "RJ", .fetchStart]

/-! ## Lemmas on the comparison and the sort -/

namespace ConsistentComparator

variable {α : Type} {cmp : α → α → Int}

theorem pos_of_neg (h : ConsistentComparator cmp) {a b : α} (hab : cmp a b < 0) :
    0 < cmp b a := by
  rcases lt_trichotomy (cmp b a) 0 with hlt | heq | hgt
  · have := h.trans_lt a b a hab hlt
    have := h.refl a
    omega
  · have := h.symm b a heq
    omega
  · exact hgt

theorem neg_of_pos (h : ConsistentComparator cmp) {a b : α} (hab : 0 < cmp a b) :
    cmp b a < 0 := by
  rcases lt_trichotomy (cmp b a) 0 with hlt | heq | hgt
  · exact hlt
  · have := h.symm b a heq
    omega
  · have := h.trans_gt a b a hab hgt
    have := h.refl a
    omega

theorem total_le (h : ConsistentComparator cmp) (a b : α) : cmp a b ≤ 0 ∨ cmp b a ≤ 0 := by
  by_cases hab : cmp a b ≤ 0
  · exact Or.inl hab
  · exact Or.inr (le_of_lt (h.neg_of_pos (by omega)))

theorem trans_le (h : ConsistentComparator cmp) {a b c : α} (hab : cmp a b ≤ 0)
    (hbc : cmp b c ≤ 0) : cmp a c ≤ 0 := by
  by_contra hac
  have hca : cmp c a < 0 := h.neg_of_pos (by omega)
  rcases lt_or_eq_of_le hab with hab | hab <;> rcases lt_or_eq_of_le hbc with hbc | hbc
  · have := h.trans_lt a b c hab hbc
    omega
  · have := h.trans_lt c a b hca hab
    have := h.symm b c hbc
    omega
  · have := h.trans_lt b c a hbc hca
    have := h.symm a b hab
    omega
  · have := h.trans_eq a b c hab hbc
    omega

/-- A consistent comparison of names is a consistent comparison of the records that
carry them. -/
theorem comap (h : ConsistentComparator cmp) {β : Type} (f : β → α) :
    ConsistentComparator (fun x y => cmp (f x) (f y)) where
  refl x := h.refl (f x)
  symm x y := h.symm (f x) (f y)
  trans_eq x y z := h.trans_eq (f x) (f y) (f z)
  trans_lt x y z := h.trans_lt (f x) (f y) (f z)
  trans_gt x y z := h.trans_gt (f x) (f y) (f z)

end ConsistentComparator

theorem perm_insertSorted {α : Type} (comparefn : α → α → Int) (x : α) (l : List α) :
    (insertSorted comparefn x l).Perm (x :: l) := by
  induction l with
  | nil => exact List.Perm.refl _
  | cons y ys ih =>
    unfold insertSorted
    split
    · exact List.Perm.refl _
    · exact (List.Perm.cons y ih).trans (List.Perm.swap x y ys)

theorem perm_arraySort {α : Type} (comparefn : α → α → Int) (l : List α) :
    (arraySort comparefn l).Perm l := by
  induction l with
  | nil => exact List.Perm.refl _
  | cons x xs ih =>
    unfold arraySort
    exact (perm_insertSorted comparefn x _).trans (List.Perm.cons x ih)

theorem pairwise_insertSorted {α : Type} {comparefn : α → α → Int}
    (h : ConsistentComparator comparefn) (x : α) (l : List α)
    (hl : l.Pairwise (fun a b => comparefn a b ≤ 0)) :
    (insertSorted comparefn x l).Pairwise (fun a b => comparefn a b ≤ 0) := by
  induction l with
  | nil => simp [insertSorted]
  | cons y ys ih =>
    have hy := List.pairwise_cons.mp hl
    unfold insertSorted
    split
    · rename_i hxy
      refine List.pairwise_cons.mpr ⟨?_, hl⟩
      intro z hz
      rcases List.mem_cons.mp hz with rfl | hz
      · exact hxy
      · exact h.trans_le hxy (hy.1 z hz)
    · rename_i hxy
      refine List.pairwise_cons.mpr ⟨?_, ih hy.2⟩
      intro z hz
      have hz := (perm_insertSorted comparefn x ys).subset hz
      rcases List.mem_cons.mp hz with rfl | hz
      · rcases h.total_le z y with hzy | hyz
        · exact absurd hzy hxy
        · exact hyz
      · exact hy.1 z hz

theorem pairwise_arraySort {α : Type} {comparefn : α → α → Int}
    (h : ConsistentComparator comparefn) (l : List α) :
    (arraySort comparefn l).Pairwise (fun a b => comparefn a b ≤ 0) := by
  induction l with
  | nil => simp [arraySort]
  | cons x xs ih =>
    unfold arraySort
    exact pairwise_insertSorted h x _ ih

theorem compareKeys_self (a : List Nat) : compareKeys a a = 0 := by
  induction a with
  | nil => rfl
  | cons x xs ih => simp [compareKeys, ih]

theorem compareKeys_eq_zero : ∀ (a b : List Nat), compareKeys a b = 0 → a = b
  | [], [], _ => rfl
  | [], _ :: _, h => by simp [compareKeys] at h
  | _ :: _, [], h => by simp [compareKeys] at h
  | x :: xs, y :: ys, h => by
    simp only [compareKeys] at h
    split_ifs at h with h1 h2
    all_goals first
      | omega
      | (have hxy : x = y := by omega
         rw [hxy, compareKeys_eq_zero xs ys h])

theorem compareKeys_swap : ∀ (a b : List Nat), compareKeys b a = - compareKeys a b
  | [], [] => rfl
  | [], _ :: _ => rfl
  | _ :: _, [] => rfl
  | x :: xs, y :: ys => by
    simp only [compareKeys]
    split_ifs <;> first
      | omega
      | rfl
      | exact compareKeys_swap xs ys

theorem compareKeys_trans_lt : ∀ (a b c : List Nat),
    compareKeys a b < 0 → compareKeys b c < 0 → compareKeys a c < 0
  | [], [], _, h, _ => by simp [compareKeys] at h
  | [], _ :: _, [], _, h => by simp [compareKeys] at h
  | [], _ :: _, _ :: _, _, _ => by simp [compareKeys]
  | _ :: _, [], _, h, _ => by simp [compareKeys] at h
  | _ :: _, _ :: _, [], _, h => by simp [compareKeys] at h
  | x :: xs, y :: ys, z :: zs, h1, h2 => by
    simp only [compareKeys] at h1 h2 ⊢
    split_ifs at h1 h2 ⊢ <;> first
      | omega
      | exact compareKeys_trans_lt xs ys zs h1 h2

theorem localeCompare_consistent : ConsistentComparator localeCompare where
  refl a := compareKeys_self _
  symm a b h := by
    unfold localeCompare at h ⊢
    rw [compareKeys_swap, h]
    rfl
  trans_eq a b c h1 h2 := by
    unfold localeCompare at h1 h2 ⊢
    rw [compareKeys_eq_zero _ _ h1, compareKeys_eq_zero _ _ h2]
    exact compareKeys_self _
  trans_lt a b c h1 h2 := compareKeys_trans_lt _ _ _ h1 h2
  trans_gt a b c h1 h2 := by
    unfold localeCompare at h1 h2 ⊢
    have h3 : compareKeys (sortKey c) (sortKey b) < 0 := by
      rw [compareKeys_swap]
      omega
    have h4 : compareKeys (sortKey b) (sortKey a) < 0 := by
      rw [compareKeys_swap]
      omega
    have := compareKeys_trans_lt _ _ _ h3 h4
    rw [compareKeys_swap] at this
    omega

/-! ## Lemmas on traces -/

theorem run_append (cmp : String → String → Int) (es₁ es₂ : List Event) (s : AppState) :
    run cmp (es₁ ++ es₂) s = run cmp es₂ (run cmp es₁ s) := by
  unfold run
  exact List.foldl_append _ _ _ _

theorem run_cons (cmp : String → String → Int) (e : Event) (es : List Event)
    (s : AppState) : run cmp (e :: es) s = run cmp es (step cmp s e) := rfl

/-- A property preserved by every event holds after every trace. -/
theorem run_invariant (cmp : String → String → Int) (P : AppState → Prop)
    (hstep : ∀ s e, P s → P (step cmp s e)) :
    ∀ (es : List Event) (s : AppState), P s → P (run cmp es s)
  | [], _, h => h
  | e :: es, s, h => run_invariant cmp P hstep es (step cmp s e) (hstep s e h)

/-- Only `handleStateSelection` writes `isButtonActive` and `selectedState`, and it
writes both. -/
theorem step_button_iff_selected (cmp : String → String → Int) (s : AppState) (e : Event)
    (h : s.isButtonActive = false ↔ s.selectedState = none) :
    (step cmp s e).isButtonActive = false ↔ (step cmp s e).selectedState = none := by
  cases e <;>
    simp [step, statesLoaded, statesFailed, handleStateSelection, searchBegin,
      searchSucceed, searchFail, h]

/-- No event clears `isButtonActive` or `isPlaceholderDisabled`. -/
theorem step_flags_stay (cmp : String → String → Int) (s : AppState) (e : Event)
    (h : s.isButtonActive = true ∧ s.isPlaceholderDisabled = true) :
    (step cmp s e).isButtonActive = true ∧ (step cmp s e).isPlaceholderDisabled = true := by
  cases e <;>
    simp [step, statesLoaded, statesFailed, handleStateSelection, searchBegin,
      searchSucceed, searchFail, h]

/-- The cell `selectedState` holds the value of the last `select` event, or its old
content when the trace has none. -/
theorem run_selectedState (cmp : String → String → Int) :
    ∀ (es : List Event) (s : AppState),
      (run cmp es s).selectedState =
        match lastSelected es with
        | some v => some v
        | none => s.selectedState
  | [], _ => rfl
  | e :: es, s => by
    rw [run_cons, run_selectedState cmp es (step cmp s e)]
    simp only [lastSelected]
    cases lastSelected es with
    | some v => rfl
    | none =>
      cases e <;>
        simp [step, statesLoaded, statesFailed, handleStateSelection, searchBegin,
          searchSucceed, searchFail, selectedValue]

theorem lastSelected_mem : ∀ (es : List Event) (v : String),
    lastSelected es = some v → Event.select v ∈ es
  | [], _, h => by simp [lastSelected] at h
  | e :: es, v, h => by
    simp only [lastSelected] at h
    cases hl : lastSelected es with
    | some w =>
      rw [hl] at h
      simp only [Option.some.injEq] at h
      exact List.mem_cons_of_mem _ (lastSelected_mem es v (h ▸ hl))
    | none =>
      rw [hl] at h
      cases e <;> simp [selectedValue] at h
      rw [h]
      exact List.mem_cons_self _ _

/-- While no request succeeds, a raised `isLoading` stays raised: only the success
path of `searchStateCities` writes `false` to it. -/
theorem run_loading_stays (cmp : String → String → Int) :
    ∀ (es : List Event) (s : AppState),
      (∀ cityData, Event.fetchSuccess cityData ∉ es) → s.isLoading = true →
        (run cmp es s).isLoading = true
  | [], _, _, h => h
  | e :: es, s, hno, h => by
    rw [run_cons]
    apply run_loading_stays cmp es
    · intro cityData hmem
      exact hno cityData (List.mem_cons_of_mem _ hmem)
    · cases e with
      | fetchSuccess cityData => exact absurd (List.mem_cons_self _ _) (hno cityData)
      | statesLoaded apiData => exact h
      | statesFailed => exact h
      | select value => exact h
      | fetchStart => rfl
      | fetchFailure => exact h

/-! ## The claims -/

/-- C1: for every successful city response, the cities model stored by
`searchStateCities` is a permutation of the response and is sorted non-decreasingly by
`nome` under the (consistent) locale-aware comparison; the rendered items carry the names
of the stored model in the same order. -/
theorem searchStateCities_sorted_perm (cmp : String → String → Int)
    (hcmp : ConsistentComparator cmp) (uf : Option String) (s : AppState)
    (cityData : List City) :
    (searchStateCities cmp uf (.ok cityData) s).cities.Perm cityData ∧
    (searchStateCities cmp uf (.ok cityData) s).cities.Pairwise
      (fun a b => cmp a.nome b.nome ≤ 0) ∧
    (renderMain (searchStateCities cmp uf (.ok cityData) s)).cityItems.map
        (fun item => item.cidade) =
      (searchStateCities cmp uf (.ok cityData) s).cities.map (fun city => city.nome) := by
  refine ⟨perm_arraySort _ _, pairwise_arraySort (hcmp.comap (fun c : City => c.nome)) _, ?_⟩
  simp only [searchStateCities, searchResolve, searchSucceed, searchBegin, renderMain]
  split
  · rename_i h
    simp at h
  · split
    · simp [MainContent.cityItems, Function.comp_def]
    · rename_i h
      have : arraySort (fun a b => cmp a.nome b.nome) cityData = [] := by
        cases hl : arraySort (fun a b => cmp a.nome b.nome) cityData with
        | nil => rfl
        | cons x xs => simp [hl] at h
      simp [MainContent.cityItems, this]

/-- C1, on the example of the specification: with the collation `localeCompare`, the
response `["Vitória", "Abadia", "Éden"]` is stored and rendered as
`["Abadia", "Éden", "Vitória"]`. -/
theorem searchStateCities_sorted_perm_witness :
    ConsistentComparator localeCompare ∧
    (searchStateCities localeCompare (some "ES") (.ok exampleCities) initialState).cities.map
        (fun city => city.nome) = ["Abadia", "Éden", "Vitória"] ∧
    ((searchStateCities localeCompare (some "ES") (.ok exampleCities)
        initialState).cities.Perm exampleCities ∧
      (searchStateCities localeCompare (some "ES") (.ok exampleCities)
        initialState).cities.Pairwise (fun a b => localeCompare a.nome b.nome ≤ 0) ∧
      (renderMain (searchStateCities localeCompare (some "ES") (.ok exampleCities)
          initialState)).cityItems.map (fun item => item.cidade) =
        (searchStateCities localeCompare (some "ES") (.ok exampleCities)
          initialState).cities.map (fun city => city.nome)) :=
  ⟨localeCompare_consistent, by decide,
    searchStateCities_sorted_perm localeCompare localeCompare_consistent (some "ES")
      initialState exampleCities⟩

/-- C2: in every state reachable from the initial state by any sequence of events,
`isButtonActive` is false if and only if `selectedState` is `null`. -/
theorem button_inactive_iff_unselected (cmp : String → String → Int)
    (events : List Event) :
    (run cmp events initialState).isButtonActive = false ↔
      (run cmp events initialState).selectedState = none :=
  run_invariant cmp
    (fun s => s.isButtonActive = false ↔ s.selectedState = none)
    (step_button_iff_selected cmp) events initialState (by simp [initialState])

/-- C3 (evaluation of the code at a failing request): after `searchStateCities` finishes
with a rejected request, `isLoading` is `true` and the main area still shows the loading
paragraph. -/
theorem searchStateCities_rejected_loading_stuck :
    (searchStateCities localeCompare (some "SP") (.error .networkError)
        (handleStateSelection "SP" initialState)).isLoading = true ∧
    renderMain (searchStateCities localeCompare (some "SP") (.error .networkError)
        (handleStateSelection "SP" initialState)) = .carregando "Carregando cidades..." := by
  decide

/-- C4: in every state with `isLoading = true` the main area is exactly the loading
paragraph and contains no city item, whatever `cities` holds. -/
theorem renderMain_loading (s : AppState) (h : s.isLoading = true) :
    renderMain s = .carregando "Carregando cidades..." ∧
    (renderMain s).showsLoading = true ∧
    (renderMain s).cityItems = [] := by
  simp [renderMain, h, MainContent.showsLoading, MainContent.cityItems]

/-- C4, on a state whose `cities` were left non-empty by an earlier successful fetch. -/
theorem renderMain_loading_witness :
    staleLoadingState.isLoading = true ∧ staleLoadingState.cities.length = 3 ∧
    (renderMain staleLoadingState = .carregando "Carregando cidades..." ∧
      (renderMain staleLoadingState).showsLoading = true ∧
      (renderMain staleLoadingState).cityItems = []) :=
  ⟨by decide, by decide, renderMain_loading staleLoadingState (by decide)⟩

/-- C5: `createDropdownOptions` returns one option more than there are states (so
also for every non-empty list), the first being the placeholder with value `""`, the
others carrying `sigla` as value and `nome` as label of the states in the order
received; the states response is stored and rendered verbatim, without a local sort. -/
theorem createDropdownOptions_order (isPlaceholderDisabled : Bool) (states : List Estado)
    (s : AppState) :
    (createDropdownOptions isPlaceholderDisabled states).length = states.length + 1 ∧
    (createDropdownOptions isPlaceholderDisabled states).head? =
      some (placeholderOption isPlaceholderDisabled) ∧
    (placeholderOption isPlaceholderDisabled).value = "" ∧
    (createDropdownOptions isPlaceholderDisabled states).tail.map
        (fun o => (o.value, o.label)) =
      states.map (fun estado => (estado.sigla, estado.nome)) ∧
    (statesLoaded states s).states = states ∧
    renderSelect (statesLoaded states s) =
      createDropdownOptions s.isPlaceholderDisabled states := by
  refine ⟨?_, rfl, rfl, ?_, rfl, rfl⟩
  · simp [createDropdownOptions]
  · simp [createDropdownOptions, Function.comp_def]

/-- C6: the button is disabled in the initial state, and after any call of
`handleStateSelection`, whatever happened before and whatever happens afterwards,
`isButtonActive` and `isPlaceholderDisabled` are `true` (the button is enabled). -/
theorem trigger_stays_enabled (cmp : String → String → Int) (before after : List Event)
    (value : String) :
    renderButtonDisabled initialState = true ∧
    (run cmp (before ++ Event.select value :: after) initialState).isButtonActive = true ∧
    (run cmp (before ++ Event.select value :: after) initialState).isPlaceholderDisabled
      = true ∧
    renderButtonDisabled (run cmp (before ++ Event.select value :: after) initialState)
      = false := by
  have h := run_invariant cmp
    (fun s => s.isButtonActive = true ∧ s.isPlaceholderDisabled = true)
    (step_flags_stay cmp) after
    (handleStateSelection value (run cmp before initialState)) ⟨rfl, rfl⟩
  rw [run_append, run_cons]
  refine ⟨rfl, h.1, h.2, ?_⟩
  simp only [renderButtonDisabled]
  rw [show step cmp (run cmp before initialState) (Event.select value) =
    handleStateSelection value (run cmp before initialState) from rfl, h.1]
  rfl

/-- C7 (as stated, refuted): `handleStateSelection` does not inspect its argument.
Called with the empty string (the value of the placeholder, and of any option whose
`sigla` is empty) it enables the button and stores the empty string as
`selectedState`, so a reachable state has the button enabled and no state code. -/
theorem handleStateSelection_empty_enables :
    (handleStateSelection "" initialState).isButtonActive = true ∧
    (renderSelect (run localeCompare [.statesLoaded emptySiglaStates] initialState)).map
        (fun o => (o.value, o.disabled)) = [("", false), ("", false)] ∧
    (run localeCompare [.statesLoaded emptySiglaStates, .select ""]
        initialState).isButtonActive = true ∧
    (run localeCompare [.statesLoaded emptySiglaStates, .select ""]
        initialState).selectedState = some "" := by
  decide

/-- C7 (amended): `handleStateSelection` enables the button for every value; in every
reachable state with `isButtonActive = true`, `selectedState` is the value passed by the
latest `handleStateSelection` call, which is non-empty when every value passed was. -/
theorem trigger_enabled_last_selection (cmp : String → String → Int)
    (events : List Event) (value : String) (s : AppState) :
    (handleStateSelection value s).isButtonActive = true ∧
    ((run cmp events initialState).isButtonActive = true →
      ∃ v, lastSelected events = some v ∧
        (run cmp events initialState).selectedState = some v ∧
        ((∀ w, Event.select w ∈ events → w ≠ "") → v ≠ "")) := by
  refine ⟨rfl, fun h => ?_⟩
  have hsel := run_selectedState cmp events initialState
  have hiff := run_invariant cmp
    (fun s => s.isButtonActive = false ↔ s.selectedState = none)
    (step_button_iff_selected cmp) events initialState (by simp [initialState])
  cases hl : lastSelected events with
  | none =>
    rw [hl] at hsel
    have : (run cmp events initialState).isButtonActive = false := hiff.mpr hsel
    rw [h] at this
    exact absurd this (by decide)
  | some v =>
    rw [hl] at hsel
    exact ⟨v, rfl, hsel, fun hall => hall v (lastSelected_mem events v hl)⟩

/-- C7 (amended), on the trace consisting of the single selection of `"SP"`. -/
theorem trigger_enabled_last_selection_witness :
    (run localeCompare [.select "SP"] initialState).isButtonActive = true ∧
    ∃ v, lastSelected [.select "SP"] = some v ∧
      (run localeCompare [.select "SP"] initialState).selectedState = some v ∧
      ((∀ w, Event.select w ∈ [Event.select "SP"] → w ≠ "") → v ≠ "") :=
  ⟨by decide,
    (trigger_enabled_last_selection localeCompare [.select "SP"] "SP" initialState).2
      (by decide)⟩

/-- C8: when a city fetch succeeds with an empty list, afterwards `isLoading` is false,
`cities` is empty and the main area renders nothing: no loading paragraph, no city
item, no message of any kind. -/
theorem searchStateCities_empty (cmp : String → String → Int) (uf : Option String)
    (s : AppState) :
    (searchStateCities cmp uf (.ok []) s).isLoading = false ∧
    (searchStateCities cmp uf (.ok []) s).cities = [] ∧
    renderMain (searchStateCities cmp uf (.ok []) s) = .nada ∧
    (renderMain (searchStateCities cmp uf (.ok []) s)).showsLoading = false ∧
    (renderMain (searchStateCities cmp uf (.ok []) s)).cityItems = [] ∧
    (renderMain (searchStateCities cmp uf (.ok []) s)).messages = [] := by
  refine ⟨rfl, rfl, ?_, ?_, ?_, ?_⟩ <;>
    simp [searchStateCities, searchResolve, searchSucceed, searchBegin, arraySort,
      renderMain, MainContent.showsLoading, MainContent.cityItems, MainContent.messages]

/-- C9 (as stated, refuted): after the states response `[SP São Paulo, RJ Rio de
Janeiro]` the dropdown does not show `Rio de Janeiro` before `São Paulo`; it shows the
options in the order received. -/
theorem scenario_dropdown_not_resorted :
    (renderSelect (statesLoaded (scenarioStates 35 33) initialState)).map
        (fun o => o.label) ≠ ["Selecione um estado", "Rio de Janeiro", "São Paulo"] ∧
    (renderSelect (statesLoaded (scenarioStates 35 33) initialState)).map
        (fun o => o.label) = ["Selecione um estado", "São Paulo", "Rio de Janeiro"] := by
  decide

/-- C9 (amended): in the scenario the dropdown shows the placeholder, `São Paulo`,
`Rio de Janeiro` (the order received); after `handleStateSelection("SP")` the button is
enabled; the confirm requests the districts of `SP`, and after it succeeds with cities
named `["Zé", "Ana"]` the rendered list is `["Ana", "Zé"]`, each item with its
micro-region name (for every consistent comparison that ranks `"Ana"` before `"Zé"`). -/
theorem scenario_trace (cmp : String → String → Int) (hcmp : ConsistentComparator cmp)
    (hAnaZe : cmp "Ana" "Zé" < 0) (idSP idRJ idZe idAna : Int) (mrZe mrAna : String) :
    (renderSelect (statesLoaded (scenarioStates idSP idRJ) initialState)).map
        (fun o => o.label) = ["Selecione um estado", "São Paulo", "Rio de Janeiro"] ∧
    renderButtonDisabled (statesLoaded (scenarioStates idSP idRJ) initialState) = true ∧
    renderButtonDisabled
        (handleStateSelection "SP" (statesLoaded (scenarioStates idSP idRJ) initialState))
      = false ∧
    citiesUrl
        (handleStateSelection "SP"
          (statesLoaded (scenarioStates idSP idRJ) initialState)).selectedState
      = "https://servicodados.ibge.gov.br/api/v1/localidades/estados/SP/distritos" ∧
    renderMain
        (searchStateCities cmp
          (handleStateSelection "SP"
            (statesLoaded (scenarioStates idSP idRJ) initialState)).selectedState
          (.ok (scenarioCities idZe idAna mrZe mrAna))
          (handleStateSelection "SP" (statesLoaded (scenarioStates idSP idRJ) initialState)))
      = .lista [ { key := idAna, cidade := "Ana", microrregiao := mrAna },
                 { key := idZe, cidade := "Zé", microrregiao := mrZe } ] := by
  have hZeAna : ¬ cmp "Zé" "Ana" ≤ 0 := not_le.mpr (hcmp.pos_of_neg hAnaZe)
  refine ⟨rfl, rfl, rfl, ?_, ?_⟩
  · show citiesUrl (some "SP") = _
    decide
  simp [searchStateCities, searchResolve, searchSucceed, searchBegin, renderMain,
    scenarioCities, arraySort, insertSorted, mkCity, hZeAna]

/-- C9 (amended), with the collation `localeCompare` and the identifiers of the two
states and of two districts. -/
theorem scenario_trace_witness :
    ConsistentComparator localeCompare ∧ localeCompare "Ana" "Zé" < 0 ∧
    renderMain
        (searchStateCities localeCompare (some "SP")
          (.ok (scenarioCities 2 1 "Sul" "Norte"))
          (handleStateSelection "SP" (statesLoaded (scenarioStates 35 33) initialState)))
      = .lista [ { key := 1, cidade := "Ana", microrregiao := "Norte" },
                 { key := 2, cidade := "Zé", microrregiao := "Sul" } ] :=
  ⟨localeCompare_consistent, by decide,
    (scenario_trace localeCompare localeCompare_consistent (by decide) 35 33 2 1
      "Sul" "Norte").2.2.2.2⟩

/-- C10 (as stated, refuted): when two confirms overlap and the second request succeeds
before the first one fails, the failing fetch ends with `isLoading = false` and the main
area shows the city list, not the loading paragraph; the failure itself changed
nothing. -/
theorem overlapping_failure_loading_false :
    (run localeCompare overlappingTrace initialState).isLoading = false ∧
    renderMain (run localeCompare overlappingTrace initialState) =
      .lista [ { key := 3548500, cidade := "Santos", microrregiao := "Santos" } ] ∧
    run localeCompare overlappingTrace initialState =
      run localeCompare overlappingTrace.dropLast initialState := by
  decide

/-- C10 (amended): the failure path of `searchStateCities` writes no state cell, so in
every state every cell, `isLoading` included, is after the failure what it was
immediately before it.  A call that runs from the confirm to the failure without another
event in between changes only `isLoading`, to `true`, and the main area then shows the
loading paragraph; the same holds with events in between as long as no city request
succeeds among them. -/
theorem fetchFailure_leaves_state (cmp : String → String → Int) (uf : Option String)
    (e : FetchError) (s : AppState) (before middle : List Event) :
    step cmp s .fetchFailure = s ∧
    searchResolve cmp (.error e) s = s ∧
    run cmp (before ++ [.fetchFailure]) s = run cmp before s ∧
    searchStateCities cmp uf (.error e) s = { s with isLoading := true } ∧
    renderMain (searchStateCities cmp uf (.error e) s) =
      .carregando "Carregando cidades..." ∧
    ((∀ cityData, Event.fetchSuccess cityData ∉ middle) →
      (run cmp (.fetchStart :: (middle ++ [.fetchFailure])) s).isLoading = true ∧
      renderMain (run cmp (.fetchStart :: (middle ++ [.fetchFailure])) s) =
        .carregando "Carregando cidades...") := by
  refine ⟨rfl, rfl, ?_, rfl, rfl, fun hno => ?_⟩
  · rw [run_append]
    rfl
  · have hload : (run cmp (.fetchStart :: (middle ++ [.fetchFailure])) s).isLoading
        = true := by
      rw [run_cons, run_append]
      exact run_loading_stays cmp middle (step cmp s .fetchStart) hno rfl
    refine ⟨hload, ?_⟩
    simp only [renderMain, hload, if_true]

/-- C10 (amended), on a confirm for `SP` followed by a re-selection and a second confirm
that are still pending when the first request fails. -/
theorem fetchFailure_leaves_state_witness :
    (∀ cityData, Event.fetchSuccess cityData ∉ pendingTrace) ∧
    (run localeCompare (.fetchStart :: (pendingTrace ++ [.fetchFailure]))
        (handleStateSelection "SP" initialState)).isLoading = true ∧
    renderMain (run localeCompare (.fetchStart :: (pendingTrace ++ [.fetchFailure]))
        (handleStateSelection "SP" initialState)) = .carregando "Carregando cidades..." :=
  ⟨by simp [pendingTrace],
    (fetchFailure_leaves_state localeCompare (some "SP") .networkError
      (handleStateSelection "SP" initialState) [] pendingTrace).2.2.2.2.2
      (by simp [pendingTrace])⟩

end AppDEx01
